import Mathlib

/-!
Verification development for the verl SFT harness.

The Python sources are shallowly embedded:
strings become `List Char`, token-id tensors become `List ℕ`, real-valued
tensors become `List ℚ`, and the distributed all-reduce collectives become
explicit sums over the per-rank values.  Each definition mirrors one Python
function or code region, named after it where Lean allows.
-/

namespace Verl

/-! ### String model (Python `str` as `List Char`)

`str.rstrip()` removes trailing whitespace, `str.strip()` removes leading and
trailing whitespace, `str.endswith(t)` tests whether `t` is a suffix. -/

/-- Python whitespace predicate used by `str.strip` / `str.rstrip`. -/
def pyIsSpace (c : Char) : Bool := c.isWhitespace

/-- Python `s.rstrip()`: drop trailing whitespace. -/
def rstrip (s : List Char) : List Char := (s.reverse.dropWhile pyIsSpace).reverse

/-- Python `s.lstrip()`: drop leading whitespace. -/
def lstrip (s : List Char) : List Char := s.dropWhile pyIsSpace

/-- Python `s.strip()`: drop leading and trailing whitespace. -/
def pyStrip (s : List Char) : List Char := lstrip (rstrip s)

/-- Python `s.endswith(t)`: `t` is a suffix of `s`. -/
def endswith (s t : List Char) : Bool := t.isSuffixOf s

/-! ### Dataset adapter (`verl/utils/dataset/sft_dataset.py`, `GSM8KDataset.__getitem__`)

The tokenizer is kept abstract: `__getitem__` is split into the string-level
eos fix-up (`ensureEosSuffix`, lines 40-41), the construction of the four
aligned arrays from the already-encoded prompt/response ids (`buildModelInputs`,
lines 45-54), and the pad/truncate step (`padOrTruncate`, lines 56-60). -/

/-- Lines 40-41 of `sft_dataset.py`:
`if not response_str.rstrip().endswith(eos): response_str += eos`. -/
def ensureEosSuffix (eos response_str : List Char) : List Char :=
  if endswith (rstrip response_str) eos then response_str else response_str ++ eos

/-- The four aligned per-example arrays returned by `__getitem__`. -/
structure ModelInputs where
  input_ids : List ℕ
  attention_mask : List ℕ
  position_ids : List ℕ
  loss_mask : List ℕ
deriving DecidableEq, Repr

/-- Lines 45-54: `input_ids = prompt_ids + response_ids`,
`attention_mask = ones_like(input_ids)`, `position_ids = arange(len)`,
`loss_mask = [0]*len(prompt_ids) + [1]*len(response_ids)`. -/
def buildModelInputs (prompt_ids response_ids : List ℕ) : ModelInputs :=
  { input_ids := prompt_ids ++ response_ids
    attention_mask := List.replicate (prompt_ids ++ response_ids).length 1
    position_ids := List.range (prompt_ids ++ response_ids).length
    loss_mask := List.replicate prompt_ids.length 0 ++ List.replicate response_ids.length 1 }

/-- `torch.nn.functional.pad(v, (0, padLength))`: append `padLength` zeros. -/
def padRight (padLength : ℕ) (v : List ℕ) : List ℕ := v ++ List.replicate padLength 0

/-- Python slice `v[-k:]`.  For `k > 0` this keeps the last `min k (len v)`
elements; for `k = 0` the slice is `v[0:]`, i.e. the whole list, because in
Python `-0 == 0`. -/
def lastSlice (k : ℕ) (v : List ℕ) : List ℕ :=
  if k = 0 then v else v.drop (v.length - k)

/-- Lines 56-60 of `sft_dataset.py`: pad every array with zeros on the right
when `len(input_ids) < max_seq_len`, otherwise keep the slice
`v[-max_seq_len:]` of every array. -/
def padOrTruncate (max_seq_len : ℕ) (mi : ModelInputs) : ModelInputs :=
  if mi.input_ids.length < max_seq_len then
    let padLength := max_seq_len - mi.input_ids.length
    { input_ids := padRight padLength mi.input_ids
      attention_mask := padRight padLength mi.attention_mask
      position_ids := padRight padLength mi.position_ids
      loss_mask := padRight padLength mi.loss_mask }
  else
    { input_ids := lastSlice max_seq_len mi.input_ids
      attention_mask := lastSlice max_seq_len mi.attention_mask
      position_ids := lastSlice max_seq_len mi.position_ids
      loss_mask := lastSlice max_seq_len mi.loss_mask }

/-- `GSM8KDataset.__getitem__` from the encoded prompt/response ids on:
build the four aligned arrays, then pad or truncate them. -/
def getItem (max_seq_len : ℕ) (prompt_ids response_ids : List ℕ) : ModelInputs :=
  padOrTruncate max_seq_len (buildModelInputs prompt_ids response_ids)

/-! ### Loss computation (`verl/trainer/fsdp_sft_trainer.py`, `FSDPSFTTrainer._compute_loss`)

The model forward and the cross-entropy kernel are floating-point neural-net
code; they are abstracted into a function `ce : ℕ → ℕ → ℚ` where `ce i lab`
is the per-token cross-entropy of the logits at position `i` against label
`lab`.  Everything downstream of the logits — the shift alignment, the
masking, the reductions and the collectives — is embedded exactly. -/

/-- Per-position cross-entropy losses of `logits[..., :-1, :]` against the
label list, from position index `i` on: the `j`-th element is
`ce (i+j) labels[j]`. -/
def ceLossesFrom (ce : ℕ → ℕ → ℚ) : ℕ → List ℕ → List ℚ
  | _, [] => []
  | i, lab :: rest => ce i lab :: ceLossesFrom ce (i + 1) rest

/-- Lines 181-201 of `fsdp_sft_trainer.py`, one sequence of the batch:
`loss_mask[:-1]` gates the per-position losses, and the labels are
`input_ids[1:]`, so position `i` scores the prediction of `input_ids[i+1]`
weighted by `loss_mask[i]`. -/
def rowMaskedLosses (ce : ℕ → ℕ → ℚ) (input_ids : List ℕ) (loss_mask : List ℚ) : List ℚ :=
  List.zipWith (fun a b => a * b) (ceLossesFrom ce 0 (input_ids.drop 1)) loss_mask.dropLast

/-- One micro-batch after the forward pass and the shift/flatten step:
the flattened per-token cross-entropy losses and the flattened
`loss_mask[:, :-1]`. -/
structure MicroBatch where
  tokenLosses : List ℚ
  lossMaskFlat : List ℚ
deriving DecidableEq, Repr

/-- The empty micro-batch, used as the out-of-range default when indexing a
rank's micro-batch list. -/
def emptyMicroBatch : MicroBatch := { tokenLosses := [], lossMaskFlat := [] }

/-- `torch.sum(loss * loss_mask)`: the masked sum of per-token losses. -/
def maskedLossSum (mb : MicroBatch) : ℚ :=
  (List.zipWith (fun a b => a * b) mb.tokenLosses mb.lossMaskFlat).sum

/-- `valid_tokens = torch.sum(loss_mask)` on one rank. -/
def localValidTokens (mb : MicroBatch) : ℚ := mb.lossMaskFlat.sum

/-- `dist.all_reduce(valid_tokens)` for the `i`-th micro-batch: the ranks run
their micro-batch loops in lockstep, so the `i`-th call on every rank pairs
up and the collective sums the per-rank local valid-token counts. -/
def worldValidTokens (ranks : List (List MicroBatch)) (i : ℕ) : ℚ :=
  (ranks.map (fun mbs => localValidTokens (mbs.getD i emptyMicroBatch))).sum

/-- Lines 202-205: the divisor of the masked mean.  With
`balance_dp_token` enabled it is the all-reduce sum of the per-rank
valid-token counts divided by the world size, otherwise the local count. -/
def validTokens (balance : Bool) (ranks : List (List MicroBatch)) (i : ℕ)
    (mb : MicroBatch) : ℚ :=
  if balance then worldValidTokens ranks i / (ranks.length : ℚ)
  else localValidTokens mb

/-- `FSDPSFTTrainer._compute_loss` for the `i`-th micro-batch of one rank:
`torch.sum(loss) / valid_tokens`. -/
def computeLoss (balance : Bool) (ranks : List (List MicroBatch)) (i : ℕ)
    (mb : MicroBatch) : ℚ :=
  maskedLossSum mb / validTokens balance ranks i mb

/-- The accumulation loop of `training_step` from micro-batch index `i` on:
`loss = self._compute_loss(micro_batch) / n_micro_batches; step_loss += loss`. -/
def accumulateStepLoss (balance : Bool) (ranks : List (List MicroBatch)) (n : ℕ) :
    ℕ → List MicroBatch → ℚ
  | _, [] => 0
  | i, mb :: rest =>
      computeLoss balance ranks i mb / (n : ℚ) + accumulateStepLoss balance ranks n (i + 1) rest

/-- `FSDPSFTTrainer.training_step` on one rank, up to the final collective:
split into micro-batches (already given), accumulate the scaled losses. -/
def trainingStepLoss (balance : Bool) (ranks : List (List MicroBatch))
    (mbs : List MicroBatch) : ℚ :=
  accumulateStepLoss balance ranks mbs.length 0 mbs

/-- `dist.all_reduce(step_loss, op=dist.ReduceOp.AVG)`: the value every rank
returns from `training_step` is the mean of the per-rank step losses. -/
def allReduceAvgStepLoss (balance : Bool) (ranks : List (List MicroBatch)) : ℚ :=
  ((ranks.map (trainingStepLoss balance ranks)).sum) / (ranks.length : ℚ)

/-- Written from the words of the spec, to be compared with the embedding of
`training_step`: for each of the `n` micro-batches, a masked-mean loss
(sum of per-token losses weighted by the mask, divided by the valid-token
count, the latter being the all-reduce sum over workers divided by the world
size when balancing is enabled and the local masked sum otherwise), each
scaled by `1/n`, accumulated, and finally averaged across ranks. -/
def specStepLoss (balance : Bool) (ranks : List (List MicroBatch)) (n : ℕ) : ℚ :=
  (1 / (ranks.length : ℚ)) *
    ∑ r ∈ Finset.range ranks.length,
      ∑ i ∈ Finset.range n,
        (1 / (n : ℚ)) *
          (maskedLossSum ((ranks.getD r []).getD i emptyMicroBatch) /
            (if balance then
              (∑ r2 ∈ Finset.range ranks.length,
                localValidTokens ((ranks.getD r2 []).getD i emptyMicroBatch)) /
                (ranks.length : ℚ)
            else localValidTokens ((ranks.getD r []).getD i emptyMicroBatch)))

/-! ### Trainer configuration (`FSDPSFTTrainer.__init__` / `_normalize_config_bsz`)

Only the configuration fields the embedded code reads are modelled. -/

/-- The `config.data` block of the trainer configuration. -/
structure DataConfig where
  train_dataset : String
  val_dataset : String
  max_seq_len : ℕ
  total_batch_size : ℕ
  micro_batch_size : ℕ
  balance_dp_token : Bool
deriving DecidableEq, Repr

/-- The `config.trainer` block of the trainer configuration. -/
structure TrainerBlock where
  total_epochs : ℕ
deriving DecidableEq, Repr

/-- The trainer configuration. -/
structure Config where
  data : DataConfig
  trainer : TrainerBlock
deriving DecidableEq, Repr

/-- `FSDPSFTTrainer._normalize_config_bsz` (lines 64-72): assert that both
batch sizes are divisible by the mesh size — a failed `assert` raises and is
modelled as `none` — then divide both in place. -/
def normalizeConfigBsz (dpSize : ℕ) (c : Config) : Option Config :=
  if c.data.total_batch_size % dpSize = 0 then
    if c.data.micro_batch_size % dpSize = 0 then
      some { c with data := { c.data with
        total_batch_size := c.data.total_batch_size / dpSize,
        micro_batch_size := c.data.micro_batch_size / dpSize } }
    else none
  else none

/-- The dataset-name checks of `_build_dataloader` (lines 76-85): any name
other than the one supported dataset raises `NotImplementedError`. -/
def buildDataloaderCheck (c : Config) : Option Unit :=
  if c.data.train_dataset = "gsm8k" then
    if c.data.val_dataset = "gsm8k" then some () else none
  else none

/-- `FSDPSFTTrainer.__init__`, the configuration-affecting pipeline:
`_normalize_config_bsz` runs first, then `_build_dataloader`; any failure
aborts initialization before a single training step can run.  Returns the
configuration as it stands after initialization. -/
def trainerInit (dpSize : ℕ) (c : Config) : Option Config :=
  (normalizeConfigBsz dpSize c).bind fun c2 =>
    (buildDataloaderCheck c2).map fun _ => c2

/-! ### Trainer state over the post-init operations

`training_step` mutates the model shard, the optimizer and the scheduler;
`validation_step` runs under `no_grad`; `save_checkpoint` only writes files.
The mutable non-config state is abstracted to counters and an abstract
parameter-update function. -/

/-- The trainer's in-process state after initialization. -/
structure TrainerState where
  config : Config
  modelParams : ℕ
  optimSteps : ℕ
  schedulerSteps : ℕ
deriving DecidableEq, Repr

/-- `FSDPSFTTrainer.training_step`: backward/step mutate the model shard
(abstracted by `gradUpdate`), the optimizer and the scheduler step. -/
def trainingStepState (gradUpdate : ℕ → ℕ) (s : TrainerState) : TrainerState :=
  { s with
    modelParams := gradUpdate s.modelParams
    optimSteps := s.optimSteps + 1
    schedulerSteps := s.schedulerSteps + 1 }

/-- `FSDPSFTTrainer.validation_step`: runs under `torch.no_grad()`, mutates
nothing in the trainer. -/
def validationStepState (s : TrainerState) : TrainerState := s

/-- `FSDPSFTTrainer.save_checkpoint`: gathers and writes artifacts, mutates
nothing in the trainer. -/
def saveCheckpointState (s : TrainerState) : TrainerState := s

/-- The inner training loop of `fit`: `stepsLeft` training steps. -/
def runTrainSteps (gradUpdate : ℕ → ℕ) : ℕ → TrainerState → TrainerState
  | 0, s => s
  | k + 1, s => runTrainSteps gradUpdate k (trainingStepState gradUpdate s)

/-- One epoch of `FSDPSFTTrainer.fit`: the training batches, then the
validation pass, then the checkpoint save. -/
def runEpoch (gradUpdate : ℕ → ℕ) (stepsPerEpoch : ℕ) (s : TrainerState) : TrainerState :=
  saveCheckpointState (validationStepState (runTrainSteps gradUpdate stepsPerEpoch s))

/-- `FSDPSFTTrainer.fit`: `epochs` epochs of train/validate/checkpoint. -/
def fitState (gradUpdate : ℕ → ℕ) (stepsPerEpoch : ℕ) : ℕ → TrainerState → TrainerState
  | 0, s => s
  | e + 1, s => fitState gradUpdate stepsPerEpoch e (runEpoch gradUpdate stepsPerEpoch s)

/-! ### Batch generation smoke test (`scripts/vllm_generate.py`)

The script builds fixed sampling parameters and a batch of eight copies of
one prompt.  The serving engine itself is external; its next-token selection
is modelled after the engine's documented sampling semantics: temperature `0`
selects the highest-probability token (greedy), a positive temperature
samples among the tokens kept by nucleus (top-p) filtering, and `top_p = 1`
keeps every token of positive probability. -/

/-- The sampling parameters of `vllm.SamplingParams` read by the model. -/
structure SamplingParams where
  temperature : ℚ
  top_p : ℚ
  max_tokens : ℕ
  skip_special_tokens : Bool
deriving DecidableEq, Repr

/-- Lines 36-41 of `vllm_generate.py`: `SamplingParams(temperature=1.0,
top_p=1.0, max_tokens=4096, skip_special_tokens=False)`. -/
def vllmGenerateSamplingParams : SamplingParams :=
  { temperature := 1, top_p := 1, max_tokens := 4096, skip_special_tokens := false }

/-- Line 44 of `vllm_generate.py`:
`inputs = [{"prompt_token_ids": token_ids}] * 8`. -/
def vllmGenerateInputs (token_ids : List ℕ) : List (List ℕ) :=
  List.replicate 8 token_ids

/-- The tokens of positive probability under a next-token distribution. -/
def supportTokens (probs : List ℚ) : List ℕ :=
  (List.range probs.length).filter (fun t => decide (0 < probs.getD t 0))

/-- First index of the maximum probability, scanning from index `i` with the
current best index and value. -/
def argmaxFrom : ℕ → ℕ → ℚ → List ℚ → ℕ
  | _, best, _, [] => best
  | i, best, bestV, q :: rest =>
      if bestV < q then argmaxFrom (i + 1) i q rest
      else argmaxFrom (i + 1) best bestV rest

/-- Greedy decoding: the first index of maximal probability. -/
def greedyToken (probs : List ℚ) : ℕ :=
  match probs with
  | [] => 0
  | q :: rest => argmaxFrom 1 0 q rest

/-- Insert a token into a token list kept sorted by decreasing probability. -/
def insertDesc (probs : List ℚ) (t : ℕ) : List ℕ → List ℕ
  | [] => [t]
  | u :: us =>
      if probs.getD u 0 < probs.getD t 0 then t :: u :: us
      else u :: insertDesc probs t us

/-- All token indices sorted by decreasing probability. -/
def sortTokensDesc (probs : List ℚ) : List ℕ :=
  (List.range probs.length).foldr (insertDesc probs) []

/-- Keep tokens from the sorted list until the cumulative probability reaches
the nucleus threshold `q`. -/
def takeNucleus (probs : List ℚ) (q : ℚ) : ℚ → List ℕ → List ℕ
  | _, [] => []
  | acc, t :: ts =>
      if q ≤ acc then []
      else t :: takeNucleus probs q (acc + probs.getD t 0) ts

/-- Nucleus (top-p) candidate set: the smallest prefix of the
probability-sorted tokens whose cumulative probability reaches `q`. -/
def nucleusTokens (q : ℚ) (probs : List ℚ) : List ℕ :=
  takeNucleus probs q 0 (sortTokensDesc probs)

/-- The set of tokens the engine's sampler can emit for one step under the
given sampling parameters: greedy for temperature `0`; otherwise the whole
support when `top_p = 1`, else the nucleus set. -/
def candidateTokens (sp : SamplingParams) (probs : List ℚ) : List ℕ :=
  if sp.temperature = 0 then [greedyToken probs]
  else if sp.top_p = 1 then supportTokens probs
  else nucleusTokens sp.top_p probs

/-! ### Interactive REPL (`scripts/inference.py`, lines 25-36)

One iteration of the `while True` loop, up to and including the user-turn
append: `exit`/`clear` are matched on `query.strip()`, while the appended
content is the original `query`. -/

/-- A chat turn's role. -/
inductive ChatRole
  | user
  | assistant
deriving DecidableEq, Repr

/-- One entry of the `messages` history list. -/
structure ChatMessage where
  role : ChatRole
  content : List Char
deriving DecidableEq, Repr

/-- What one REPL iteration does to the loop. -/
inductive ReplStepResult
  | exitLoop
  | continueLoop (messages : List ChatMessage)
deriving DecidableEq, Repr

/-- Lines 25-36 of `inference.py`: `break` on stripped `exit`, reset the
history on stripped `clear`, otherwise append the original query as the user
turn. -/
def replStep (messages : List ChatMessage) (query : List Char) : ReplStepResult :=
  if pyStrip query = "exit".toList then ReplStepResult.exitLoop
  else if pyStrip query = "clear".toList then ReplStepResult.continueLoop []
  else ReplStepResult.continueLoop
    (messages ++ [{ role := ChatRole.user, content := query }])

/-! ## Theorems -/

theorem length_padRight (k : ℕ) (v : List ℕ) : (padRight k v).length = v.length + k := by
  simp [padRight]

theorem buildModelInputs_input_ids (p r : List ℕ) :
    (buildModelInputs p r).input_ids.length = p.length + r.length := by
  simp [buildModelInputs]

theorem buildModelInputs_lengths (p r : List ℕ) :
    (buildModelInputs p r).input_ids.length = p.length + r.length ∧
    (buildModelInputs p r).attention_mask.length = p.length + r.length ∧
    (buildModelInputs p r).position_ids.length = p.length + r.length ∧
    (buildModelInputs p r).loss_mask.length = p.length + r.length := by
  simp [buildModelInputs]

/-- Claim C1 (amended with `0 < max_seq_len`): for every example,
`__getitem__` returns four arrays of identical length equal to the configured
`max_seq_len`, whether the untruncated example is shorter than, equal to, or
longer than `max_seq_len`. -/
theorem c1_getitem_lengths (max_seq_len : ℕ) (prompt_ids response_ids : List ℕ)
    (h : 0 < max_seq_len) :
    (getItem max_seq_len prompt_ids response_ids).input_ids.length = max_seq_len ∧
    (getItem max_seq_len prompt_ids response_ids).attention_mask.length = max_seq_len ∧
    (getItem max_seq_len prompt_ids response_ids).position_ids.length = max_seq_len ∧
    (getItem max_seq_len prompt_ids response_ids).loss_mask.length = max_seq_len := by
  obtain ⟨h1, h2, h3, h4⟩ := buildModelInputs_lengths prompt_ids response_ids
  unfold getItem padOrTruncate
  split
  next hlt =>
    rw [h1] at hlt
    refine ⟨?_, ?_, ?_, ?_⟩ <;>
      simp only [length_padRight, h1, h2, h3, h4] <;> omega
  next hge =>
    rw [h1, Nat.not_lt] at hge
    have hk : ¬ max_seq_len = 0 := by omega
    refine ⟨?_, ?_, ?_, ?_⟩ <;>
      simp only [lastSlice, hk, if_false, List.length_drop, h1, h2, h3, h4] <;> omega

/-- Claim C1 counterexample: with `max_seq_len = 0` and a nonempty example,
the Python slice `v[-0:]` is the whole array (because `-0 == 0`), so the
returned arrays have length 1, not the configured `max_seq_len = 0`. -/
theorem c1_counterexample : ¬ ((getItem 0 [5] []).input_ids.length = 0) := by decide

/-- Witness for C1 at `max_seq_len = 4` with a 2-token prompt and a 1-token
response. -/
theorem c1_witness :
    (getItem 4 [11, 12] [13]).input_ids.length = 4 ∧
    (getItem 4 [11, 12] [13]).attention_mask.length = 4 ∧
    (getItem 4 [11, 12] [13]).position_ids.length = 4 ∧
    (getItem 4 [11, 12] [13]).loss_mask.length = 4 :=
  c1_getitem_lengths 4 [11, 12] [13] (by decide)

theorem loss_mask_sum_build (p r : List ℕ) :
    (buildModelInputs p r).loss_mask.sum = r.length := by
  simp [buildModelInputs, List.sum_append, List.sum_replicate]

/-- Claim C2 (amended with `0 < max_seq_len`): the sum of the returned
`loss_mask` equals the number of response token ids when the untruncated
length fits within `max_seq_len`, and otherwise equals the number of response
ids inside the trailing `max_seq_len`-element window, i.e.
`min (len response_ids) max_seq_len`. -/
theorem c2_loss_mask_sum (max_seq_len : ℕ) (prompt_ids response_ids : List ℕ)
    (h : 0 < max_seq_len) :
    (prompt_ids.length + response_ids.length ≤ max_seq_len →
      (getItem max_seq_len prompt_ids response_ids).loss_mask.sum = response_ids.length) ∧
    (max_seq_len < prompt_ids.length + response_ids.length →
      (getItem max_seq_len prompt_ids response_ids).loss_mask.sum =
        min response_ids.length max_seq_len) := by
  have h1 := buildModelInputs_input_ids prompt_ids response_ids
  have hk : ¬ max_seq_len = 0 := by omega
  constructor
  · intro hle
    unfold getItem padOrTruncate
    split
    next hlt =>
      simp [padRight, List.sum_append, loss_mask_sum_build, buildModelInputs,
        List.sum_replicate]
    next hge =>
      rw [h1, Nat.not_lt] at hge
      have heq : prompt_ids.length + response_ids.length = max_seq_len := by omega
      simp only [lastSlice, hk, if_false]
      have hml : (buildModelInputs prompt_ids response_ids).loss_mask.length =
          prompt_ids.length + response_ids.length :=
        (buildModelInputs_lengths prompt_ids response_ids).2.2.2
      rw [hml, heq, Nat.sub_self, List.drop_zero, loss_mask_sum_build]
  · intro hgt
    unfold getItem padOrTruncate
    split
    next hlt => rw [h1] at hlt; omega
    next hge =>
      simp only [lastSlice, hk, if_false]
      have hml : (buildModelInputs prompt_ids response_ids).loss_mask.length =
          prompt_ids.length + response_ids.length :=
        (buildModelInputs_lengths prompt_ids response_ids).2.2.2
      rw [hml]
      show ((List.replicate prompt_ids.length 0 ++
        List.replicate response_ids.length 1).drop
          (prompt_ids.length + response_ids.length - max_seq_len)).sum =
        min response_ids.length max_seq_len
      rw [List.drop_append_eq_append_drop, List.drop_replicate, List.drop_replicate,
        List.sum_append, List.sum_replicate, List.sum_replicate, List.length_replicate]
      simp only [smul_eq_mul, Nat.mul_zero, Nat.mul_one, Nat.zero_add, Nat.mul_comm]
      omega

/-- Claim C2 counterexample: with `max_seq_len = 0` and one response token,
the slice `v[-0:]` keeps the whole mask, so its sum is 1 while the number of
response ids inside the trailing 0-element window is 0. -/
theorem c2_counterexample : ¬ ((getItem 0 [] [7]).loss_mask.sum = 0) := by decide

/-- Witness for C2: a 2-token prompt with a 1-token response padded to
`max_seq_len = 4` has loss-mask sum 1. -/
theorem c2_witness : (getItem 4 [11, 12] [13]).loss_mask.sum = 1 :=
  (c2_loss_mask_sum 4 [11, 12] [13] (by decide)).1 (by decide)

/-- Claim C4 (amended with `0 < max_seq_len`): zero right-padding happens
exactly when the untruncated length is strictly below `max_seq_len`; at or
above it, each of the four arrays is exactly its last `max_seq_len` elements
(`drop (len - max_seq_len)` of a length-`len` array) and no padding occurs. -/
theorem c4_pad_iff_truncate (max_seq_len : ℕ) (prompt_ids response_ids : List ℕ)
    (h : 0 < max_seq_len) :
    (prompt_ids.length + response_ids.length < max_seq_len →
      getItem max_seq_len prompt_ids response_ids =
        { input_ids := (prompt_ids ++ response_ids) ++
            List.replicate (max_seq_len - (prompt_ids.length + response_ids.length)) 0
          attention_mask := List.replicate (prompt_ids.length + response_ids.length) 1 ++
            List.replicate (max_seq_len - (prompt_ids.length + response_ids.length)) 0
          position_ids := List.range (prompt_ids.length + response_ids.length) ++
            List.replicate (max_seq_len - (prompt_ids.length + response_ids.length)) 0
          loss_mask := (List.replicate prompt_ids.length 0 ++
              List.replicate response_ids.length 1) ++
            List.replicate (max_seq_len - (prompt_ids.length + response_ids.length)) 0 }) ∧
    (max_seq_len ≤ prompt_ids.length + response_ids.length →
      getItem max_seq_len prompt_ids response_ids =
        { input_ids := (prompt_ids ++ response_ids).drop
            (prompt_ids.length + response_ids.length - max_seq_len)
          attention_mask := (List.replicate (prompt_ids.length + response_ids.length) 1).drop
            (prompt_ids.length + response_ids.length - max_seq_len)
          position_ids := (List.range (prompt_ids.length + response_ids.length)).drop
            (prompt_ids.length + response_ids.length - max_seq_len)
          loss_mask := (List.replicate prompt_ids.length 0 ++
              List.replicate response_ids.length 1).drop
            (prompt_ids.length + response_ids.length - max_seq_len) }) := by
  have h1 := buildModelInputs_input_ids prompt_ids response_ids
  have hk : ¬ max_seq_len = 0 := by omega
  constructor
  · intro hlt
    unfold getItem padOrTruncate
    rw [if_pos (by rw [h1]; exact hlt)]
    simp [buildModelInputs, padRight, List.length_append]
  · intro hge
    unfold getItem padOrTruncate
    rw [if_neg (by rw [h1]; omega)]
    simp only [lastSlice, hk, if_false]
    have ⟨g1, g2, g3, g4⟩ := buildModelInputs_lengths prompt_ids response_ids
    rw [g1, g2, g3, g4]
    simp [buildModelInputs, List.length_append]

/-- Claim C4 counterexample: with `max_seq_len = 0` the untruncated length 2
is at or above the maximum, yet `v[-0:]` keeps the whole array instead of its
last 0 elements. -/
theorem c4_counterexample : ¬ ((getItem 0 [3, 4] []).input_ids = []) := by decide

/-- Witness for C4: truncating a 3-token example to `max_seq_len = 2` keeps
the last two elements of every array. -/
theorem c4_witness :
    getItem 2 [11, 12] [13] =
      { input_ids := [12, 13], attention_mask := [1, 1],
        position_ids := [1, 2], loss_mask := [0, 1] } := by
  have hc := (c4_pad_iff_truncate 2 [11, 12] [13] (by decide)).2 (by decide)
  rw [hc]
  decide

theorem endswith_iff (s t : List Char) : endswith s t = true ↔ t <:+ s :=
  List.isSuffixOf_iff_suffix

theorem reverse_rstrip (s : List Char) :
    (rstrip s).reverse = s.reverse.dropWhile pyIsSpace := by
  simp [rstrip]

/-- Claim C3 counterexample: when the chat formatter renders the full
conversation with a trailing newline after the eos token, the check
`response_str.rstrip().endswith(eos)` passes, nothing is appended, and the
returned response string ends with the newline — not with the eos token. -/
theorem c3_counterexample :
    ¬ (endswith (ensureEosSuffix ("</s>".toList) ("</s>\n".toList)) ("</s>".toList) = true) := by
  decide

/-- Claim C3 (amended): after the conditional append, the response string
right-stripped of trailing whitespace always ends with the right-stripped eos
token — the eos marker is guaranteed only up to trailing whitespace, for
every possible output of the chat-formatting function and every eos token. -/
theorem c3_response_ends_with_eos (eos response_str : List Char) :
    endswith (rstrip (ensureEosSuffix eos response_str)) (rstrip eos) = true := by
  rw [endswith_iff, ← List.reverse_prefix, reverse_rstrip, reverse_rstrip]
  unfold ensureEosSuffix
  split
  next hcond =>
    have hsuf : eos <:+ rstrip response_str := (endswith_iff _ _).mp hcond
    have hpre : eos.reverse <+: (rstrip response_str).reverse :=
      List.reverse_prefix.mpr hsuf
    rw [reverse_rstrip] at hpre
    obtain ⟨rest, hrest⟩ := hpre
    by_cases hE : List.dropWhile pyIsSpace eos.reverse = []
    · rw [hE]; exact List.nil_prefix
    · have hidem :
          List.dropWhile pyIsSpace (List.dropWhile pyIsSpace response_str.reverse) =
            List.dropWhile pyIsSpace response_str.reverse :=
        List.dropWhile_idempotent _ _
      rw [← hrest, List.dropWhile_append] at hidem
      rw [if_neg (by simp [hE])] at hidem
      have hEeq : List.dropWhile pyIsSpace eos.reverse = eos.reverse :=
        List.append_cancel_right hidem
      rw [hEeq, ← hrest]
      exact List.prefix_append _ _
  next hcond =>
    rw [List.reverse_append, List.dropWhile_append]
    by_cases hE : List.dropWhile pyIsSpace eos.reverse = []
    · rw [if_pos (by simp [hE])]
      rw [hE]
      exact List.nil_prefix
    · rw [if_neg (by simp [hE])]
      exact List.prefix_append _ _

/-- Claim C6: with a positive device-mesh size, `_normalize_config_bsz` (and
hence trainer initialization, which runs it before building anything else)
fails exactly when one of the two configured batch sizes is not divisible by
the mesh size, and otherwise succeeds, dividing both batch sizes by the mesh
size and touching nothing else.  A `none` initialization result is the fatal
assertion error: no trainer exists, so no training step ever runs and there
is no retry. -/
theorem c6_normalize_config_bsz (dpSize : ℕ) (c : Config) (h : 0 < dpSize) :
    (¬ (dpSize ∣ c.data.total_batch_size ∧ dpSize ∣ c.data.micro_batch_size) →
      normalizeConfigBsz dpSize c = none ∧ trainerInit dpSize c = none) ∧
    (dpSize ∣ c.data.total_batch_size → dpSize ∣ c.data.micro_batch_size →
      normalizeConfigBsz dpSize c =
        some { c with data := { c.data with
          total_batch_size := c.data.total_batch_size / dpSize,
          micro_batch_size := c.data.micro_batch_size / dpSize } }) := by
  constructor
  · intro hnd
    have hcases : ¬ (c.data.total_batch_size % dpSize = 0) ∨
        ¬ (c.data.micro_batch_size % dpSize = 0) := by
      by_contra hcon
      push_neg at hcon
      exact hnd ⟨Nat.dvd_iff_mod_eq_zero.mpr hcon.1,
        Nat.dvd_iff_mod_eq_zero.mpr hcon.2⟩
    have hnorm : normalizeConfigBsz dpSize c = none := by
      unfold normalizeConfigBsz
      rcases hcases with h1 | h2
      · rw [if_neg h1]
      · by_cases h1 : c.data.total_batch_size % dpSize = 0
        · rw [if_pos h1, if_neg h2]
        · rw [if_neg h1]
    exact ⟨hnorm, by unfold trainerInit; rw [hnorm]; rfl⟩
  · intro h1 h2
    unfold normalizeConfigBsz
    rw [if_pos (Nat.dvd_iff_mod_eq_zero.mp h1),
      if_pos (Nat.dvd_iff_mod_eq_zero.mp h2)]

/-- Witness for C6: mesh size 2 with batch sizes 4 and 2 passes the check
and halves both batch sizes. -/
theorem c6_witness :
    normalizeConfigBsz 2
      { data := { train_dataset := "gsm8k",
                  val_dataset := "gsm8k",
                  max_seq_len := 512,
                  total_batch_size := 4,
                  micro_batch_size := 2,
                  balance_dp_token := false },
        trainer := { total_epochs := 1 } } =
      some { data := { train_dataset := "gsm8k",
                       val_dataset := "gsm8k",
                       max_seq_len := 512,
                       total_batch_size := 2,
                       micro_batch_size := 1,
                       balance_dp_token := false },
             trainer := { total_epochs := 1 } } := by
  have hc := (c6_normalize_config_bsz 2
    { data := { train_dataset := "gsm8k",
                val_dataset := "gsm8k",
                max_seq_len := 512,
                total_batch_size := 4,
                micro_batch_size := 2,
                balance_dp_token := false },
      trainer := { total_epochs := 1 } } (by decide)).2 (by decide) (by decide)
  rw [hc]
  decide

/-- Claim C7 counterexample: initialization itself mutates the configuration.
With mesh size 2, a configuration with batch sizes 4 and 2 comes out of a
successful `__init__` with batch sizes 2 and 1: the configuration after
initialization differs from the one passed in. -/
theorem c7_counterexample :
    trainerInit 2
      { data := { train_dataset := "gsm8k",
                  val_dataset := "gsm8k",
                  max_seq_len := 512,
                  total_batch_size := 4,
                  micro_batch_size := 2,
                  balance_dp_token := false },
        trainer := { total_epochs := 1 } } =
      some { data := { train_dataset := "gsm8k",
                       val_dataset := "gsm8k",
                       max_seq_len := 512,
                       total_batch_size := 2,
                       micro_batch_size := 1,
                       balance_dp_token := false },
             trainer := { total_epochs := 1 } } ∧
    ({ data := { train_dataset := "gsm8k",
                 val_dataset := "gsm8k",
                 max_seq_len := 512,
                 total_batch_size := 2,
                 micro_batch_size := 1,
                 balance_dp_token := false },
       trainer := { total_epochs := 1 } } : Config) ≠
      { data := { train_dataset := "gsm8k",
                  val_dataset := "gsm8k",
                  max_seq_len := 512,
                  total_batch_size := 4,
                  micro_batch_size := 2,
                  balance_dp_token := false },
        trainer := { total_epochs := 1 } } := by
  decide

theorem config_runTrainSteps (g : ℕ → ℕ) :
    ∀ (k : ℕ) (s : TrainerState), (runTrainSteps g k s).config = s.config := by
  intro k
  induction k with
  | zero => intro s; rfl
  | succ k ih => intro s; exact ih (trainingStepState g s)

theorem config_fitState (g : ℕ → ℕ) (n : ℕ) :
    ∀ (e : ℕ) (s : TrainerState), (fitState g n e s).config = s.config := by
  intro e
  induction e with
  | zero => intro s; rfl
  | succ e ih =>
      intro s
      rw [fitState, ih, runEpoch, validationStepState, saveCheckpointState,
        config_runTrainSteps]

/-- Claim C7 (amended): only initialization mutates the configuration (it
divides both batch sizes by the mesh size); after initialization, no trainer
operation — training step, validation step, checkpoint save, or the whole
epoch loop — modifies any configuration field. -/
theorem c7_config_immutable_after_init (g : ℕ → ℕ) (n e : ℕ) (s : TrainerState) :
    (trainingStepState g s).config = s.config ∧
    (validationStepState s).config = s.config ∧
    (saveCheckpointState s).config = s.config ∧
    (runEpoch g n s).config = s.config ∧
    (fitState g n e s).config = s.config :=
  ⟨rfl, rfl, rfl,
    by rw [runEpoch, validationStepState, saveCheckpointState, config_runTrainSteps],
    config_fitState g n e s⟩

theorem getD_replicate {α : Type} (x : α) : ∀ (n i : ℕ), (List.replicate n x).getD i x = x := by
  intro n
  induction n with
  | zero => intro i; rfl
  | succ n ih =>
      intro i
      cases i with
      | zero => rfl
      | succ i => exact ih i

/-- Claim C8 counterexample: under the smoke test's sampling parameters
(`temperature=1.0`, `top_p=1.0`) the sampler's candidate set over a
distribution giving two tokens equal positive weight contains both token 0
and token 1, so generation is not deterministic: two runs can pick different
tokens. -/
theorem c8_counterexample :
    0 ∈ candidateTokens vllmGenerateSamplingParams [1, 1] ∧
    1 ∈ candidateTokens vllmGenerateSamplingParams [1, 1] ∧
    ¬ ((candidateTokens vllmGenerateSamplingParams [1, 1]).length ≤ 1) := by
  decide

/-- Claim C8 (amended): the smoke test issues one fixed prompt replicated 8
times, with temperature and top-p at their neutral values (`1.0`), which are
not greedy decoding: the sampler draws from the model's full support, so
identical outputs across runs are guaranteed only for single-token supports. -/
theorem c8_smoke_test (token_ids : List ℕ) (i : ℕ) (probs : List ℚ) :
    vllmGenerateInputs token_ids = List.replicate 8 token_ids ∧
    (vllmGenerateInputs token_ids).length = 8 ∧
    (vllmGenerateInputs token_ids).getD i token_ids = token_ids ∧
    vllmGenerateSamplingParams.temperature = 1 ∧
    vllmGenerateSamplingParams.top_p = 1 ∧
    vllmGenerateSamplingParams.temperature ≠ 0 ∧
    candidateTokens vllmGenerateSamplingParams probs = supportTokens probs := by
  have h2 : vllmGenerateSamplingParams.top_p = 1 := rfl
  refine ⟨rfl, by simp [vllmGenerateInputs], getD_replicate token_ids 8 i, rfl, rfl,
    by norm_num [vllmGenerateSamplingParams], ?_⟩
  rw [candidateTokens, if_neg (by norm_num [vllmGenerateSamplingParams]), if_pos h2]

/-- Claim C10: the REPL matches commands on the whitespace-stripped input —
stripped `exit` leaves the loop, stripped `clear` empties the history — and
every other input is appended to the history unchanged, whitespace included,
as the user turn. -/
theorem c10_repl_step (messages : List ChatMessage) (query : List Char) :
    (pyStrip query = "exit".toList → replStep messages query = ReplStepResult.exitLoop) ∧
    (pyStrip query = "clear".toList → replStep messages query = ReplStepResult.continueLoop []) ∧
    (pyStrip query ≠ "exit".toList → pyStrip query ≠ "clear".toList →
      replStep messages query = ReplStepResult.continueLoop
        (messages ++ [{ role := ChatRole.user, content := query }])) := by
  refine ⟨?_, ?_, ?_⟩
  · intro hx
    rw [replStep, if_pos hx]
  · intro hc
    have hx : ¬ (pyStrip query = "exit".toList) := by
      rw [hc]; decide
    rw [replStep, if_neg hx, if_pos hc]
  · intro hx hc
    rw [replStep, if_neg hx, if_neg hc]

/-- Witness for C10: an input with surrounding whitespace that is not a
command is appended verbatim. -/
theorem c10_witness :
    replStep [] ("  hi there  ".toList) =
      ReplStepResult.continueLoop
        [{ role := ChatRole.user, content := "  hi there  ".toList }] :=
  (c10_repl_step [] ("  hi there  ".toList)).2.2 (by decide) (by decide)

theorem ceLossesFrom_length (ce : ℕ → ℕ → ℚ) :
    ∀ (l : List ℕ) (i : ℕ), (ceLossesFrom ce i l).length = l.length := by
  intro l
  induction l with
  | nil => intro i; rfl
  | cons lab rest ih => intro i; simp [ceLossesFrom, ih]

theorem ceLossesFrom_getD (ce : ℕ → ℕ → ℚ) :
    ∀ (l : List ℕ) (i j : ℕ), j < l.length →
      (ceLossesFrom ce i l).getD j 0 = ce (i + j) (l.getD j 0) := by
  intro l
  induction l with
  | nil => intro i j hj; exact absurd hj (Nat.not_lt_zero j)
  | cons lab rest ih =>
      intro i j hj
      cases j with
      | zero => rfl
      | succ j =>
          rw [ceLossesFrom, List.getD_cons_succ, List.getD_cons_succ,
            ih (i + 1) j (by simpa using hj)]
          congr 1
          omega

theorem zipWith_mul_getD :
    ∀ (A B : List ℚ) (j : ℕ), j < A.length → j < B.length →
      (List.zipWith (fun a b => a * b) A B).getD j 0 = A.getD j 0 * B.getD j 0 := by
  intro A
  induction A with
  | nil => intro B j hA hB; exact absurd hA (Nat.not_lt_zero j)
  | cons a as ih =>
      intro B j hA hB
      cases B with
      | nil => exact absurd hB (Nat.not_lt_zero j)
      | cons b bs =>
          cases j with
          | zero => rfl
          | succ j =>
              rw [List.zipWith_cons_cons, List.getD_cons_succ, List.getD_cons_succ,
                List.getD_cons_succ]
              exact ih bs j (by simpa using hA) (by simpa using hB)

theorem zipWith_mul_sum_zero :
    ∀ (A B : List ℚ), (∀ j, j < B.length → B.getD j 0 = 0) →
      (List.zipWith (fun a b => a * b) A B).sum = 0 := by
  intro A
  induction A with
  | nil => intro B hB; rfl
  | cons a as ih =>
      intro B hB
      cases B with
      | nil => rfl
      | cons b bs =>
          have hb : b = 0 := hB 0 (by simp)
          have hrest : ∀ j, j < bs.length → bs.getD j 0 = 0 := by
            intro j hj
            have hx := hB (j + 1) (by simpa using Nat.succ_lt_succ hj)
            simpa using hx
          rw [List.zipWith_cons_cons, List.sum_cons, hb, mul_zero, zero_add]
          exact ih bs hrest

theorem getD_dropLast {α : Type} (d : α) (l : List α) (j : ℕ) (h : j < l.length - 1) :
    l.dropLast.getD j d = l.getD j d := by
  have h1 : j < l.dropLast.length := by simpa [List.length_dropLast] using h
  have h2 : j < l.length := by omega
  rw [List.getD_eq_getElem _ _ h1, List.getD_eq_getElem _ _ h2, List.getElem_dropLast]

theorem getD_drop_one {α : Type} (d : α) (l : List α) (j : ℕ) (h : j + 1 < l.length) :
    (l.drop 1).getD j d = l.getD (j + 1) d := by
  cases l with
  | nil => simp at h
  | cons x xs => simp [List.getD_cons_succ]

/-- Claim C9: in `_compute_loss` the final loss-mask position is dropped and
per-position losses are aligned against labels shifted left by one — the loss
at position `i` is weighted by `loss_mask[i]` and scores the prediction of
`input_ids[i+1]`; there are only `len - 1` loss positions, so the last token
of the window never contributes a target gated by its own mask entry; and for
a sequence whose mask is zero at positions `0..len-2` the summed masked loss
is zero regardless of the per-token losses the logits induce. -/
theorem c9_loss_alignment (ce : ℕ → ℕ → ℚ) (input_ids : List ℕ) (loss_mask : List ℚ)
    (hlen : loss_mask.length = input_ids.length) :
    (rowMaskedLosses ce input_ids loss_mask).length = input_ids.length - 1 ∧
    (∀ i, i + 1 < input_ids.length →
      (rowMaskedLosses ce input_ids loss_mask).getD i 0 =
        ce i (input_ids.getD (i + 1) 0) * loss_mask.getD i 0) ∧
    ((∀ i, i + 1 < input_ids.length → loss_mask.getD i 0 = 0) →
      (rowMaskedLosses ce input_ids loss_mask).sum = 0) := by
  have hA : (ceLossesFrom ce 0 (input_ids.drop 1)).length = input_ids.length - 1 := by
    rw [ceLossesFrom_length]; simp [List.length_drop]
  have hB : loss_mask.dropLast.length = input_ids.length - 1 := by
    simp [List.length_dropLast, hlen]
  refine ⟨?_, ?_, ?_⟩
  · rw [rowMaskedLosses, List.length_zipWith, hA, hB, Nat.min_self]
  · intro i hi
    have hi2 : i < input_ids.length - 1 := by omega
    rw [rowMaskedLosses,
      zipWith_mul_getD _ _ i (by rw [hA]; exact hi2) (by rw [hB]; exact hi2),
      ceLossesFrom_getD ce _ 0 i (by simp [List.length_drop]; omega),
      Nat.zero_add, getD_drop_one _ _ _ hi,
      getD_dropLast _ _ _ (by rw [hlen]; exact hi2)]
  · intro hz
    rw [rowMaskedLosses]
    apply zipWith_mul_sum_zero
    intro j hj
    rw [hB] at hj
    rw [getD_dropLast _ _ _ (by rw [hlen]; exact hj)]
    exact hz j (by omega)

/-- Witness for C9: a 3-token sequence whose mask is zero at positions 0 and
1 (the value at the dropped final mask position is irrelevant) has masked
loss sum zero under an arbitrary concrete per-token loss function. -/
theorem c9_witness :
    (rowMaskedLosses (fun i lab => (i : ℚ) + (lab : ℚ)) [1, 2, 3] [0, 0, 5]).sum = 0 :=
  (c9_loss_alignment (fun i lab => (i : ℚ) + (lab : ℚ)) [1, 2, 3] [0, 0, 5]
    (by decide)).2.2 (by
      intro i hi
      have hi2 : i < 2 := by simp at hi; omega
      interval_cases i <;> rfl)

theorem map_sum_eq_range_sum {α : Type} (f : α → ℚ) (d : α) :
    ∀ (l : List α), (l.map f).sum = ∑ i ∈ Finset.range l.length, f (l.getD i d) := by
  intro l
  induction l with
  | nil => simp
  | cons x xs ih =>
      rw [List.map_cons, List.sum_cons, ih, List.length_cons, Finset.sum_range_succ']
      simp only [List.getD_cons_succ, List.getD_cons_zero]
      exact add_comm _ _

theorem accumulateStepLoss_eq (balance : Bool) (ranks : List (List MicroBatch)) (n : ℕ) :
    ∀ (mbs : List MicroBatch) (i : ℕ),
      accumulateStepLoss balance ranks n i mbs =
        ∑ j ∈ Finset.range mbs.length,
          computeLoss balance ranks (i + j) (mbs.getD j emptyMicroBatch) / (n : ℚ) := by
  intro mbs
  induction mbs with
  | nil => intro i; simp [accumulateStepLoss]
  | cons mb rest ih =>
      intro i
      rw [accumulateStepLoss, ih (i + 1), List.length_cons, Finset.sum_range_succ',
        add_comm]
      congr 1
      apply Finset.sum_congr rfl
      intro j hj
      rw [List.getD_cons_succ]
      congr 2
      omega

theorem trainingStepLoss_eq (balance : Bool) (ranks : List (List MicroBatch))
    (mbs : List MicroBatch) :
    trainingStepLoss balance ranks mbs =
      ∑ j ∈ Finset.range mbs.length,
        computeLoss balance ranks j (mbs.getD j emptyMicroBatch) / (mbs.length : ℚ) := by
  rw [trainingStepLoss, accumulateStepLoss_eq]
  apply Finset.sum_congr rfl
  intro j hj
  rw [Nat.zero_add]

/-- Claim C5: a training step computes, for each of the `n` micro-batches of
the batch, a masked-mean loss — the mask-weighted sum of per-token losses
divided by the valid-token count, the latter being the all-reduce sum over
workers divided by the world size when `balance_dp_token` is set and the
local mask sum otherwise — scales each micro-batch loss by `1/n`,
accumulates them, and returns the loss averaged across ranks by the
averaging all-reduce. -/
theorem c5_training_step (balance : Bool) (ranks : List (List MicroBatch)) (n : ℕ)
    (hn : ∀ mbs ∈ ranks, mbs.length = n) :
    allReduceAvgStepLoss balance ranks = specStepLoss balance ranks n := by
  rw [allReduceAvgStepLoss, specStepLoss,
    map_sum_eq_range_sum (trainingStepLoss balance ranks) [],
    one_div, ← div_eq_inv_mul]
  congr 1
  apply Finset.sum_congr rfl
  intro r hr
  have hr2 : r < ranks.length := Finset.mem_range.mp hr
  have hmem : ranks.getD r [] ∈ ranks := by
    rw [List.getD_eq_getElem _ _ hr2]
    exact List.getElem_mem hr2
  have hlen : (ranks.getD r []).length = n := hn _ hmem
  rw [trainingStepLoss_eq, hlen]
  apply Finset.sum_congr rfl
  intro j hj
  rw [computeLoss, validTokens, worldValidTokens,
    map_sum_eq_range_sum (fun mbs => localValidTokens (mbs.getD j emptyMicroBatch)) [],
    one_div, ← div_eq_inv_mul]

/-- Witness for C5 at one rank, one micro-batch, balancing disabled. -/
theorem c5_witness :
    allReduceAvgStepLoss false
        [[{ tokenLosses := [2, 3], lossMaskFlat := [1, 0] }]] =
      specStepLoss false
        [[{ tokenLosses := [2, 3], lossMaskFlat := [1, 0] }]] 1 :=
  c5_training_step false
    [[{ tokenLosses := [2, 3], lossMaskFlat := [1, 0] }]] 1 (by decide)

end Verl
